import Mathlib

/-!
Shallow embedding of the Bedrock provider adapter
(`src/libs/agent-runtime/bedrock/index.ts`) and the Anthropic message
converter (`src/libs/agent-runtime/utils/anthropicHelpers.ts`).

JavaScript strings are `String`, but the string primitives used by the
source (`startsWith`, data-URI splitting) are modelled on `List Char` so
that every definition evaluates inside the kernel.  JSON serialization
with `JSON.stringify` drops object keys whose value is `undefined`; a
request body is therefore a structure of `Option` fields together with a
`keys` function listing the keys that survive serialization, in the
order the source's object literal writes them.  The vendor network call
is abstracted by a `VendorOutcome` argument: either the streamed chunks
the SDK would deliver, or the error the SDK would throw.
-/

/-- Roles of the application's unified chat messages (`OpenAIChatMessage.role`). -/
inductive MessageRole where
  | system
  | user
  | assistant
  | function
deriving DecidableEq, Repr

/-- A multipart content part (`UserMessageContentPart`): text, or an image
reference by data URI (`image_url.url`). -/
inductive UserMessageContentPart where
  | text (text : String)
  | image_url (url : String)
deriving DecidableEq, Repr

/-- Message content: plain text or an ordered sequence of parts
(`string | UserMessageContentPart[]`). -/
inductive MessageContent where
  | text (s : String)
  | parts (ps : List UserMessageContentPart)
deriving DecidableEq, Repr

/-- The application's unified chat message (`OpenAIChatMessage`). -/
structure OpenAIChatMessage where
  role : MessageRole
  content : MessageContent
deriving DecidableEq, Repr

/-- The unified chat request (`ChatStreamPayload`).  Optional numeric fields
are `Option`; `temperature` and `top_p` are carried opaquely as rationals
since the adapter only passes them through. -/
structure ChatStreamPayload where
  model : String
  messages : List OpenAIChatMessage
  max_tokens : Option Nat
  temperature : Option Rat
  top_p : Option Rat
deriving DecidableEq, Repr

/-- Provider identifiers (`ModelProvider`, from the types module). -/
inductive ModelProvider where
  | Bedrock
deriving DecidableEq, Repr

/-- Error kinds used by the adapter (`AgentRuntimeErrorType`). -/
inductive AgentRuntimeErrorType where
  | InvalidBedrockCredentials
  | BedrockBizError
deriving DecidableEq, Repr

/-- Modelled from the spec: `AgentRuntimeError.createError` from
`../utils/createError` is not part of the excerpt.  Per the spec it builds
the construction-time structured error carrying the error kind
(AdapterError with kind MissingCredentials here). -/
structure AgentRuntimeInitError where
  errorType : AgentRuntimeErrorType
deriving DecidableEq, Repr

/-- Modelled from the spec: wrapper mirroring the call
`AgentRuntimeError.createError(errorType)`. -/
def AgentRuntimeError.createError (t : AgentRuntimeErrorType) : AgentRuntimeInitError :=
  { errorType := t }

/-- Helper: does a Char list start with the given pattern?  Used to model
`String.startsWith` by a kernel-computable function. -/
def charPrefixOf : List Char → List Char → Bool
  | [], _ => true
  | _ :: _, [] => false
  | p :: ps, c :: cs => p == c && charPrefixOf ps cs

/-- Model of JavaScript `s.startsWith(pat)`. -/
def strStartsWith (s pat : String) : Bool :=
  charPrefixOf pat.toList s.toList

/-- JavaScript truthiness of an optional string: `undefined` and the empty
string are falsy. -/
def jsTruthy : Option String → Bool
  | none => false
  | some s => !(s.isEmpty)

/-- JavaScript `x || d` for an optional number: `undefined` and `0` are
falsy, so both select the default. -/
def jsNumOr (x : Option Nat) (d : Nat) : Nat :=
  match x with
  | none => d
  | some n => if n == 0 then d else n

/-- Drop the pattern from the front of the list, if it is a prefix. -/
def stripSeq : List Char → List Char → Option (List Char)
  | [], rest => some rest
  | _ :: _, [] => none
  | p :: ps, c :: cs => if p == c then stripSeq ps cs else none

/-- Split a Char list at the first occurrence of the separator sequence,
returning the part before and the part after the separator. -/
def breakOnSeq (sep : List Char) : List Char → Option (List Char × List Char)
  | [] =>
    match stripSeq sep [] with
    | some rest => some ([], rest)
    | none => none
  | c :: cs =>
    match stripSeq sep (c :: cs) with
    | some rest => some ([], rest)
    | none =>
      match breakOnSeq sep cs with
      | some pr => some (c :: pr.1, pr.2)
      | none => none

/-- The `{ mimeType, base64 }` record produced by the data-URI parser. -/
structure DataUriParts where
  mimeType : String
  base64 : String
deriving DecidableEq, Repr

/-- Modelled from the spec: `parseDataUri` from `./uriParser` is not part of
the excerpt.  Per the spec, a data URI `data:<mimeType>;base64,<payload>`
decomposes into its MIME type and base64 payload, and a malformed URI is a
decode failure that propagates out of the converter. -/
def parseDataUri (uri : String) : Except String DataUriParts :=
  match breakOnSeq ((";base64,").toList) uri.toList with
  | some pr =>
    match stripSeq (("data:").toList) pr.1 with
    | some mime => Except.ok { mimeType := String.mk mime, base64 := String.mk pr.2 }
    | none => Except.error ("malformed data URI")
  | none => Except.error ("malformed data URI")

/-- Vendor message roles (`Anthropic.Messages.MessageParam.role`). -/
inductive AnthropicRole where
  | user
  | assistant
deriving DecidableEq, Repr

/-- The `source` record of a vendor base64 image block. -/
structure ImageSource where
  data : String
  media_type : String
  type : String
deriving DecidableEq, Repr

/-- A vendor content block: a text block (the TextPart passed through
unchanged) or a base64 image block (`{ source, type: 'image' }`). -/
inductive AnthropicBlock where
  | text (text : String)
  | image (source : ImageSource)
deriving DecidableEq, Repr

/-- Vendor message content: plain text or a sequence of content blocks. -/
inductive AnthropicContent where
  | text (s : String)
  | blocks (bs : List AnthropicBlock)
deriving DecidableEq, Repr

/-- A vendor message (`Anthropic.Messages.MessageParam`). -/
structure AnthropicMessageParam where
  content : AnthropicContent
  role : AnthropicRole
deriving DecidableEq, Repr

/-- Left-to-right map that propagates the first failure, modelling
`Array.prototype.map` over a callback that may throw. -/
def mapExcept (f : α → Except ε β) : List α → Except ε (List β)
  | [] => Except.ok []
  | x :: xs =>
    match f x with
    | Except.error e => Except.error e
    | Except.ok y =>
      match mapExcept f xs with
      | Except.error e => Except.error e
      | Except.ok ys => Except.ok (y :: ys)

/-- `buildAnthropicBlock`: a TextPart passes through unchanged; an
`image_url` part has its data URI decoded and becomes a base64 image
block.  The decode failure (missing `parseDataUri` modelled from the
spec) propagates. -/
def buildAnthropicBlock (content : UserMessageContentPart) : Except String AnthropicBlock :=
  match content with
  | UserMessageContentPart.text t => Except.ok (AnthropicBlock.text t)
  | UserMessageContentPart.image_url url =>
    match parseDataUri url with
    | Except.error e => Except.error e
    | Except.ok parts =>
      Except.ok (AnthropicBlock.image
        { data := parts.base64, media_type := parts.mimeType, type := ("base64") })

/-- The role remap of `buildAnthropicMessage`:
`role === 'function' || role === 'system' ? 'assistant' : role`. -/
def anthropicRole (role : MessageRole) : AnthropicRole :=
  if role == MessageRole.function || role == MessageRole.system then
    AnthropicRole.assistant
  else
    match role with
    | MessageRole.user => AnthropicRole.user
    | _ => AnthropicRole.assistant

/-- `buildAnthropicMessage`: string content passes through, multipart
content maps every part through `buildAnthropicBlock`. -/
def buildAnthropicMessage (message : OpenAIChatMessage) : Except String AnthropicMessageParam :=
  match message.content with
  | MessageContent.text s =>
    Except.ok { content := AnthropicContent.text s, role := anthropicRole message.role }
  | MessageContent.parts ps =>
    match mapExcept buildAnthropicBlock ps with
    | Except.error e => Except.error e
    | Except.ok bs =>
      Except.ok { content := AnthropicContent.blocks bs, role := anthropicRole message.role }

/-- `buildAnthropicMessages`: element-wise map of `buildAnthropicMessage`. -/
def buildAnthropicMessages (messages : List OpenAIChatMessage) :
    Except String (List AnthropicMessageParam) :=
  mapExcept buildAnthropicMessage messages

/-- The Llama-family model prefix tested by `chat`
(`payload.model.startsWith('meta')`). -/
def llamaFamilyTag : String := "meta"

/-- Modelled from the spec: `experimental_buildLlama2Prompt` comes from the
external `ai` package (a vendor-specific prompt-templating function that
flattens the whole conversation into one text prompt).  Its output value is
irrelevant to the adapter's contract; it is modelled as a flattening of the
textual contents. -/
def experimental_buildLlama2Prompt (messages : List OpenAIChatMessage) : String :=
  String.intercalate ("\n") (messages.map fun m =>
    match m.content with
    | MessageContent.text s => s
    | MessageContent.parts _ => "")

/-- The JSON body built by `invokeClaudeModel`.  `system` holds the content
of the extracted system message when one exists; fields that are
`undefined` in the source are `none` and dropped by `JSON.stringify`. -/
structure ClaudeRequestBody where
  anthropic_version : String
  max_tokens : Nat
  messages : List AnthropicMessageParam
  system : Option MessageContent
  temperature : Option Rat
  top_p : Option Rat
deriving DecidableEq, Repr

/-- The keys of the serialized Claude request body, in the order of the
source's object literal; `undefined` fields are dropped by
`JSON.stringify`. -/
def ClaudeRequestBody.keys (b : ClaudeRequestBody) : List String :=
  ["anthropic_version", "max_tokens", "messages"]
    ++ (if b.system.isSome then [("system")] else [])
    ++ (if b.temperature.isSome then [("temperature")] else [])
    ++ (if b.top_p.isSome then [("top_p")] else [])

/-- The JSON body built by `invokeLlamaModel`. -/
structure LlamaRequestBody where
  max_gen_len : Nat
  prompt : String
deriving DecidableEq, Repr

/-- The keys of the serialized Llama request body; both fields are always
defined. -/
def LlamaRequestBody.keys (_ : LlamaRequestBody) : List String :=
  ["max_gen_len", "prompt"]

/-- Construction of the Claude-path request body, exactly the object
literal in `invokeClaudeModel`: the first system message is extracted with
`find`, every system message is filtered out of the list handed to
`buildAnthropicMessages`, and `max_tokens || 4096` supplies the default.
A conversion failure propagates. -/
def claudeRequestBody (payload : ChatStreamPayload) : Except String ClaudeRequestBody :=
  let system_message := payload.messages.find? (fun m => m.role == MessageRole.system)
  let user_messages := payload.messages.filter (fun m => !(m.role == MessageRole.system))
  match buildAnthropicMessages user_messages with
  | Except.error e => Except.error e
  | Except.ok msgs =>
    Except.ok
      { anthropic_version := "bedrock-2023-05-31"
        max_tokens := jsNumOr payload.max_tokens 4096
        messages := msgs
        system := system_message.map (fun m => m.content)
        temperature := payload.temperature
        top_p := payload.top_p }

/-- Construction of the Llama-path request body, exactly the object literal
in `invokeLlamaModel`: `max_tokens || 400` supplies the default and the
whole message list is flattened into one prompt. -/
def llamaRequestBody (payload : ChatStreamPayload) : LlamaRequestBody :=
  { max_gen_len := jsNumOr payload.max_tokens 400
    prompt := experimental_buildLlama2Prompt payload.messages }

/-- The request body `chat` serializes for a payload: the Llama body when
the model identifier starts with the Llama-family prefix, the Claude body
otherwise. -/
inductive ChatBody where
  | claude (b : ClaudeRequestBody)
  | llama (b : LlamaRequestBody)
deriving DecidableEq, Repr

/-- Keys of the serialized body either path produces. -/
def ChatBody.keys : ChatBody → List String
  | ChatBody.claude b => b.keys
  | ChatBody.llama b => b.keys

/-- The body of the vendor command that `chat` builds for a payload,
following the same `model.startsWith('meta')` dispatch as `chat`. -/
def chatRequestBody (payload : ChatStreamPayload) : Except String ChatBody :=
  if strStartsWith payload.model llamaFamilyTag then
    Except.ok (ChatBody.llama (llamaRequestBody payload))
  else
    match claudeRequestBody payload with
    | Except.error e => Except.error e
    | Except.ok b => Except.ok (ChatBody.claude b)

/-- The error the vendor SDK throws on a failed invocation: `name`,
`message` and `$metadata`. -/
structure VendorError where
  name : String
  message : String
  metadata : String
deriving DecidableEq, Repr

/-- Outcome of the abstracted vendor streaming call: the streamed chunks,
or the thrown error. -/
inductive VendorOutcome where
  | ok (chunks : List String)
  | err (e : VendorError)
deriving DecidableEq, Repr

/-- The `error` record passed to `AgentRuntimeError.chat`: `body` holds the
vendor metadata, `type` the original error name.  The Llama path
additionally repeats the region inside this record. -/
structure BedrockErrorBody where
  body : String
  message : String
  type : String
  region : Option String
deriving DecidableEq, Repr

/-- Modelled from the spec: the structured per-call error built by
`AgentRuntimeError.chat` from `../utils/createError` (not part of the
excerpt) — AdapterError with kind ProviderInvocationFailure, carrying
provider identity, region, original message, original error type name and
raw metadata. -/
structure ChatCompletionErrorPayload where
  error : BedrockErrorBody
  errorType : AgentRuntimeErrorType
  provider : ModelProvider
  region : String
deriving DecidableEq, Repr

/-- What a `chat` call can reject with: an error thrown while building the
request body (before the `try` block — not wrapped), or the structured
error built inside the `catch`. -/
inductive ChatError where
  | conversionFailure (e : String)
  | chatError (p : ChatCompletionErrorPayload)
deriving DecidableEq, Repr

/-- The normalized streaming response handed back to the caller: the
primary branch of the teed stream, whether the diagnostic branch was
drained to the debug sink, and whether a drain failure was caught and
logged. -/
structure NormalizedStreamResult where
  output : List String
  debugDrainAttempted : Bool
  loggedDebugError : Bool
deriving DecidableEq, Repr

/-- The vendor client configuration captured at construction. -/
structure BedrockCredentials where
  accessKeyId : String
  secretAccessKey : String
deriving DecidableEq, Repr

/-- The `BedrockRuntimeClient` constructor argument. -/
structure BedrockRuntimeClientConfig where
  credentials : BedrockCredentials
  region : String
deriving DecidableEq, Repr

/-- Constructor argument of the adapter (`LobeBedrockAIParams`): all three
fields optional at the type level, credentials validated at run time. -/
structure LobeBedrockAIParams where
  accessKeyId : Option String
  accessKeySecret : Option String
  region : Option String
deriving DecidableEq, Repr

/-- The constructed adapter (`LobeBedrockAI`): the vendor client bound to
the resolved region, and the region kept for error reporting. -/
structure LobeBedrockAI where
  client : BedrockRuntimeClientConfig
  region : String
deriving DecidableEq, Repr

/-- The `LobeBedrockAI` constructor: throws
`AgentRuntimeError.createError(InvalidBedrockCredentials)` unless both
credentials are truthy, defaults the region to `us-east-1`, then creates
the vendor client. -/
def mkLobeBedrockAI (params : LobeBedrockAIParams) :
    Except AgentRuntimeInitError LobeBedrockAI :=
  if jsTruthy params.accessKeyId && jsTruthy params.accessKeySecret then
    let region := params.region.getD ("us-east-1")
    Except.ok
      { region := region
        client :=
          { credentials :=
              { accessKeyId := params.accessKeyId.getD ("")
                secretAccessKey := params.accessKeySecret.getD ("") }
            region := region } }
  else
    Except.error (AgentRuntimeError.createError AgentRuntimeErrorType.InvalidBedrockCredentials)

/-- Is the debug environment toggle enabled
(`process.env.DEBUG_BEDROCK_CHAT_COMPLETION === '1'`)? -/
def debugBedrockChatCompletion (env : Option String) : Bool :=
  env == some ("1")

/-- Shared tail of both invocation paths: the vendor call, the stream
transform, the tee and the debug drain
(`debugStream(debug).catch(console.error)` — modelled from the spec for
the missing `debugStream`: a drain failure is caught and only logged).
`region` inside the caught error's body is `some` only on the Llama path. -/
def invokeWithOutcome (region : String) (env : Option String) (outcome : VendorOutcome)
    (debugDrainFails : Bool) (errBodyRegion : Option String) :
    Except ChatError NormalizedStreamResult :=
  match outcome with
  | VendorOutcome.ok chunks =>
    let dbg := debugBedrockChatCompletion env
    Except.ok
      { output := chunks
        debugDrainAttempted := dbg
        loggedDebugError := dbg && debugDrainFails }
  | VendorOutcome.err e =>
    Except.error (ChatError.chatError
      { error := { body := e.metadata, message := e.message, type := e.name,
                   region := errBodyRegion }
        errorType := AgentRuntimeErrorType.BedrockBizError
        provider := ModelProvider.Bedrock
        region := region })

/-- `invokeClaudeModel`: the command body (including the converted
messages) is built before the `try` block, so a conversion failure
propagates unwrapped; a vendor failure inside the `try` is re-raised as
the structured error. -/
def LobeBedrockAI.invokeClaudeModel (ai : LobeBedrockAI) (env : Option String)
    (payload : ChatStreamPayload) (outcome : VendorOutcome) (debugDrainFails : Bool) :
    Except ChatError NormalizedStreamResult :=
  match claudeRequestBody payload with
  | Except.error e => Except.error (ChatError.conversionFailure e)
  | Except.ok _ => invokeWithOutcome ai.region env outcome debugDrainFails none

/-- `invokeLlamaModel`: the body never fails to build; a vendor failure is
re-raised as the structured error whose `error` record repeats the
region. -/
def LobeBedrockAI.invokeLlamaModel (ai : LobeBedrockAI) (env : Option String)
    (payload : ChatStreamPayload) (outcome : VendorOutcome) (debugDrainFails : Bool) :
    Except ChatError NormalizedStreamResult :=
  let _body := llamaRequestBody payload
  invokeWithOutcome ai.region env outcome debugDrainFails (some ai.region)

/-- `chat`: dispatch on `payload.model.startsWith('meta')`. -/
def LobeBedrockAI.chat (ai : LobeBedrockAI) (env : Option String)
    (payload : ChatStreamPayload) (outcome : VendorOutcome) (debugDrainFails : Bool) :
    Except ChatError NormalizedStreamResult :=
  if strStartsWith payload.model llamaFamilyTag then
    ai.invokeLlamaModel env payload outcome debugDrainFails
  else
    ai.invokeClaudeModel env payload outcome debugDrainFails

deriving instance DecidableEq for Except

/-! ## Helper lemmas -/

theorem find?_eq_filter_head? (p : α → Bool) (l : List α) :
    l.find? p = (l.filter p).head? := by
  induction l with
  | nil => rfl
  | cons x xs ih =>
    cases h : p x
    · rw [List.find?_cons_of_neg _ (by simp [h]), List.filter_cons_of_neg (by simp [h]), ih]
    · rw [List.find?_cons_of_pos _ h, List.filter_cons_of_pos h]
      rfl

theorem mapExcept_ok_spec (f : α → Except ε β) (l : List α) :
    ∀ out, mapExcept f l = Except.ok out →
      out.length = l.length ∧
      ∀ i (hi : i < l.length) (ho : i < out.length),
        f (l.get ⟨i, hi⟩) = Except.ok (out.get ⟨i, ho⟩) := by
  induction l with
  | nil =>
    intro out h
    simp only [mapExcept] at h
    cases h
    exact ⟨rfl, fun i hi => absurd hi (by simp)⟩
  | cons x xs ih =>
    intro out h
    simp only [mapExcept] at h
    cases hfx : f x with
    | error e => rw [hfx] at h; cases h
    | ok y =>
      rw [hfx] at h
      cases hrest : mapExcept f xs with
      | error e => rw [hrest] at h; cases h
      | ok ys =>
        rw [hrest] at h
        cases h
        obtain ⟨hlen, hget⟩ := ih ys hrest
        refine ⟨by simp [hlen], ?_⟩
        intro i hi ho
        cases i with
        | zero => simpa using hfx
        | succ n => simpa using hget n (by simpa using hi) (by simpa using ho)

/-! ## Claim theorems -/

/-- C5: `buildAnthropicMessage` maps the roles system and function to the
vendor role assistant and passes user and assistant through unchanged, and
`buildAnthropicMessages` produces an output of the same length whose i-th
element is the conversion of the i-th input (order preserved). -/
theorem buildAnthropicMessages_role_and_shape :
    (∀ m out, buildAnthropicMessage m = Except.ok out →
      out.role =
        match m.role with
        | MessageRole.system => AnthropicRole.assistant
        | MessageRole.function => AnthropicRole.assistant
        | MessageRole.user => AnthropicRole.user
        | MessageRole.assistant => AnthropicRole.assistant)
    ∧ ∀ msgs out, buildAnthropicMessages msgs = Except.ok out →
        out.length = msgs.length ∧
        ∀ i (hi : i < msgs.length) (ho : i < out.length),
          buildAnthropicMessage (msgs.get ⟨i, hi⟩) = Except.ok (out.get ⟨i, ho⟩) := by
  constructor
  · intro m out h
    have hrole : out.role = anthropicRole m.role := by
      cases hc : m.content with
      | text s =>
        simp only [buildAnthropicMessage, hc] at h
        cases h
        rfl
      | parts ps =>
        simp only [buildAnthropicMessage, hc] at h
        cases hm : mapExcept buildAnthropicBlock ps with
        | error e => rw [hm] at h; cases h
        | ok bs => rw [hm] at h; cases h; rfl
    rw [hrole]
    cases m.role <;> rfl
  · intro msgs out h
    exact mapExcept_ok_spec buildAnthropicMessage msgs out h

/-- C5 witness: a concrete system message converts to role assistant, and a
concrete two-message sequence converts element-wise with length preserved. -/
theorem buildAnthropicMessages_role_and_shape_witness :
    buildAnthropicMessage { role := MessageRole.system, content := MessageContent.text ("a") } =
      Except.ok { content := AnthropicContent.text ("a"), role := AnthropicRole.assistant }
    ∧ ({ content := AnthropicContent.text ("a"), role := AnthropicRole.assistant }
        : AnthropicMessageParam).role = AnthropicRole.assistant
    ∧ buildAnthropicMessages
        [{ role := MessageRole.system, content := MessageContent.text ("a") },
         { role := MessageRole.user, content := MessageContent.text ("b") }] =
      Except.ok
        [{ content := AnthropicContent.text ("a"), role := AnthropicRole.assistant },
         { content := AnthropicContent.text ("b"), role := AnthropicRole.user }]
    ∧ ([{ content := AnthropicContent.text ("a"), role := AnthropicRole.assistant },
        { content := AnthropicContent.text ("b"), role := AnthropicRole.user }]
        : List AnthropicMessageParam).length =
      ([{ role := MessageRole.system, content := MessageContent.text ("a") },
        { role := MessageRole.user, content := MessageContent.text ("b") }]
        : List OpenAIChatMessage).length :=
  ⟨by decide,
   buildAnthropicMessages_role_and_shape.1
     { role := MessageRole.system, content := MessageContent.text ("a") }
     { content := AnthropicContent.text ("a"), role := AnthropicRole.assistant }
     (by decide),
   by decide,
   (buildAnthropicMessages_role_and_shape.2
     [{ role := MessageRole.system, content := MessageContent.text ("a") },
      { role := MessageRole.user, content := MessageContent.text ("b") }]
     [{ content := AnthropicContent.text ("a"), role := AnthropicRole.assistant },
      { content := AnthropicContent.text ("b"), role := AnthropicRole.user }]
     (by decide)).1⟩

/-- C6: `buildAnthropicBlock` passes a text part through unchanged, and an
image part whose data URI decodes into MIME type m and base64 payload d
becomes the vendor block with source type base64, media type m and data d. -/
theorem buildAnthropicBlock_spec :
    (∀ t, buildAnthropicBlock (UserMessageContentPart.text t) = Except.ok (AnthropicBlock.text t))
    ∧ ∀ url m d, parseDataUri url = Except.ok { mimeType := m, base64 := d } →
        buildAnthropicBlock (UserMessageContentPart.image_url url) =
          Except.ok (AnthropicBlock.image { data := d, media_type := m, type := "base64" }) := by
  constructor
  · intro t
    rfl
  · intro url m d h
    simp [buildAnthropicBlock, h]

/-- C6 witness: the PNG example from the spec decodes to media type
image/png and data AAAA. -/
theorem buildAnthropicBlock_spec_witness :
    parseDataUri ("data:image/png;base64,AAAA") =
      Except.ok { mimeType := "image/png", base64 := "AAAA" }
    ∧ buildAnthropicBlock (UserMessageContentPart.image_url ("data:image/png;base64,AAAA")) =
      Except.ok (AnthropicBlock.image
        { data := "AAAA", media_type := "image/png", type := "base64" }) :=
  ⟨by decide, buildAnthropicBlock_spec.2 _ _ _ (by decide)⟩

/-- C7: when `max_tokens` is omitted, the Claude body carries
`max_tokens = 4096` and the Llama body carries `max_gen_len = 400`. -/
theorem default_max_tokens_of_omitted (p : ChatStreamPayload)
    (h : p.max_tokens = none) :
    (llamaRequestBody p).max_gen_len = 400
    ∧ ∀ b, claudeRequestBody p = Except.ok b → b.max_tokens = 4096 := by
  constructor
  · simp [llamaRequestBody, jsNumOr, h]
  · intro b hb
    simp only [claudeRequestBody] at hb
    cases hm : buildAnthropicMessages
        (p.messages.filter (fun m => !(m.role == MessageRole.system))) with
    | error e => rw [hm] at hb; cases hb
    | ok msgs =>
      rw [hm] at hb
      cases hb
      simp [jsNumOr, h]

/-- C7 witness: a concrete payload with `max_tokens` omitted yields the
defaults on both paths. -/
theorem default_max_tokens_of_omitted_witness :
    ({ model := "m", messages := [], max_tokens := none, temperature := none,
       top_p := none } : ChatStreamPayload).max_tokens = none
    ∧ (llamaRequestBody
        { model := "m", messages := [], max_tokens := none, temperature := none,
          top_p := none }).max_gen_len = 400
    ∧ claudeRequestBody
        { model := "m", messages := [], max_tokens := none, temperature := none,
          top_p := none } =
      Except.ok
        { anthropic_version := "bedrock-2023-05-31", max_tokens := 4096, messages := [],
          system := none, temperature := none, top_p := none }
    ∧ ({ anthropic_version := "bedrock-2023-05-31", max_tokens := 4096, messages := [],
         system := none, temperature := none, top_p := none } : ClaudeRequestBody).max_tokens
        = 4096 :=
  ⟨rfl,
   (default_max_tokens_of_omitted
     { model := "m", messages := [], max_tokens := none, temperature := none,
       top_p := none } rfl).1,
   by decide,
   (default_max_tokens_of_omitted
     { model := "m", messages := [], max_tokens := none, temperature := none,
       top_p := none } rfl).2
     { anthropic_version := "bedrock-2023-05-31", max_tokens := 4096, messages := [],
       system := none, temperature := none, top_p := none }
     (by decide)⟩

/-- C9: when `max_tokens` is supplied but equal to 0, the default
substitution still triggers (JavaScript `||` is falsy on 0): the Claude
body carries `max_tokens = 4096` and the Llama body `max_gen_len = 400`. -/
theorem default_max_tokens_of_zero (p : ChatStreamPayload)
    (h : p.max_tokens = some 0) :
    (llamaRequestBody p).max_gen_len = 400
    ∧ ∀ b, claudeRequestBody p = Except.ok b → b.max_tokens = 4096 := by
  constructor
  · simp [llamaRequestBody, jsNumOr, h]
  · intro b hb
    simp only [claudeRequestBody] at hb
    cases hm : buildAnthropicMessages
        (p.messages.filter (fun m => !(m.role == MessageRole.system))) with
    | error e => rw [hm] at hb; cases hb
    | ok msgs =>
      rw [hm] at hb
      cases hb
      simp [jsNumOr, h]

/-- C9 witness: a concrete payload with `max_tokens = 0` yields the defaults
on both paths. -/
theorem default_max_tokens_of_zero_witness :
    ({ model := "m", messages := [], max_tokens := some 0, temperature := none,
       top_p := none } : ChatStreamPayload).max_tokens = some 0
    ∧ (llamaRequestBody
        { model := "m", messages := [], max_tokens := some 0, temperature := none,
          top_p := none }).max_gen_len = 400
    ∧ claudeRequestBody
        { model := "m", messages := [], max_tokens := some 0, temperature := none,
          top_p := none } =
      Except.ok
        { anthropic_version := "bedrock-2023-05-31", max_tokens := 4096, messages := [],
          system := none, temperature := none, top_p := none }
    ∧ ({ anthropic_version := "bedrock-2023-05-31", max_tokens := 4096, messages := [],
         system := none, temperature := none, top_p := none } : ClaudeRequestBody).max_tokens
        = 4096 :=
  ⟨rfl,
   (default_max_tokens_of_zero
     { model := "m", messages := [], max_tokens := some 0, temperature := none,
       top_p := none } rfl).1,
   by decide,
   (default_max_tokens_of_zero
     { model := "m", messages := [], max_tokens := some 0, temperature := none,
       top_p := none } rfl).2
     { anthropic_version := "bedrock-2023-05-31", max_tokens := 4096, messages := [],
       system := none, temperature := none, top_p := none }
     (by decide)⟩

/-- C1: `chat` dispatches on a prefix test of the model identifier: a model
starting with the Llama-family prefix gets a body whose serialized keys
include `prompt` and `max_gen_len` and exclude `messages` and `system`;
every other model gets a body whose keys include `messages`,
`anthropic_version` and `max_tokens`. -/
theorem chat_dispatch_body_shape (p : ChatStreamPayload) :
    (strStartsWith p.model llamaFamilyTag = true →
      ∀ b, chatRequestBody p = Except.ok b →
        ("prompt") ∈ b.keys ∧ ("max_gen_len") ∈ b.keys ∧
        ("messages") ∉ b.keys ∧ ("system") ∉ b.keys)
    ∧ (strStartsWith p.model llamaFamilyTag = false →
      ∀ b, chatRequestBody p = Except.ok b →
        ("messages") ∈ b.keys ∧ ("anthropic_version") ∈ b.keys ∧
        ("max_tokens") ∈ b.keys) := by
  constructor
  · intro hpre b hb
    simp only [chatRequestBody, hpre, if_pos] at hb
    cases hb
    refine ⟨?_, ?_, ?_, ?_⟩ <;> simp [ChatBody.keys, LlamaRequestBody.keys]
  · intro hpre b hb
    simp only [chatRequestBody, hpre, Bool.false_eq_true, if_false] at hb
    cases hm : claudeRequestBody p with
    | error e => rw [hm] at hb; cases hb
    | ok c =>
      rw [hm] at hb
      cases hb
      refine ⟨?_, ?_, ?_⟩ <;> simp [ChatBody.keys, ClaudeRequestBody.keys]

/-- C1 witness: a concrete Llama-family payload and a concrete Claude
payload exhibit the two body shapes. -/
theorem chat_dispatch_body_shape_witness :
    (("prompt") ∈ (ChatBody.llama { max_gen_len := 400, prompt := "hi" }).keys
      ∧ ("messages") ∉ (ChatBody.llama { max_gen_len := 400, prompt := "hi" }).keys)
    ∧ (("messages") ∈ (ChatBody.claude
        { anthropic_version := "bedrock-2023-05-31", max_tokens := 4096,
          messages := [{ content := AnthropicContent.text ("hi"),
                         role := AnthropicRole.user }],
          system := none, temperature := none, top_p := none }).keys
      ∧ ("anthropic_version") ∈ (ChatBody.claude
        { anthropic_version := "bedrock-2023-05-31", max_tokens := 4096,
          messages := [{ content := AnthropicContent.text ("hi"),
                         role := AnthropicRole.user }],
          system := none, temperature := none, top_p := none }).keys) := by
  have hL := (chat_dispatch_body_shape
    { model := "meta.llama2-13b",
      messages := [{ role := MessageRole.user, content := MessageContent.text ("hi") }],
      max_tokens := none, temperature := none, top_p := none }).1 (by decide)
    (ChatBody.llama { max_gen_len := 400, prompt := "hi" }) (by decide)
  have hC := (chat_dispatch_body_shape
    { model := "anthropic.claude-3",
      messages := [{ role := MessageRole.user, content := MessageContent.text ("hi") }],
      max_tokens := none, temperature := none, top_p := none }).2 (by decide)
    (ChatBody.claude
      { anthropic_version := "bedrock-2023-05-31", max_tokens := 4096,
        messages := [{ content := AnthropicContent.text ("hi"),
                       role := AnthropicRole.user }],
        system := none, temperature := none, top_p := none }) (by decide)
  exact ⟨⟨hL.1, hL.2.2.1⟩, ⟨hC.1, hC.2.1⟩⟩

theorem jsTruthy_none : jsTruthy none = false := rfl

theorem jsTruthy_empty : jsTruthy (some ("")) = false := rfl

/-- C2: construction fails with the InvalidBedrockCredentials error kind
(the spec's MissingCredentials) whenever either credential is absent or
empty, producing no client; with both credentials non-empty it succeeds,
the client holds them, and the region defaults to us-east-1 when not
supplied. -/
theorem mkLobeBedrockAI_spec (params : LobeBedrockAIParams) :
    ((params.accessKeyId = none ∨ params.accessKeyId = some ("") ∨
      params.accessKeySecret = none ∨ params.accessKeySecret = some ("")) →
      mkLobeBedrockAI params =
        Except.error { errorType := AgentRuntimeErrorType.InvalidBedrockCredentials })
    ∧ ∀ keyId keySecret, params.accessKeyId = some keyId → keyId ≠ ("") →
        params.accessKeySecret = some keySecret → keySecret ≠ ("") →
        ∃ ai, mkLobeBedrockAI params = Except.ok ai
          ∧ ai.client.credentials =
              { accessKeyId := keyId, secretAccessKey := keySecret }
          ∧ ai.client.region = ai.region
          ∧ ai.region = params.region.getD ("us-east-1")
          ∧ (params.region = none → ai.region = "us-east-1") := by
  constructor
  · intro h
    rcases h with h | h | h | h <;>
      simp [mkLobeBedrockAI, AgentRuntimeError.createError, h,
        jsTruthy_none, jsTruthy_empty]
  · intro keyId keySecret h1 hne1 h2 hne2
    have hk1 : keyId.isEmpty = false := by
      cases hk : keyId.isEmpty
      · rfl
      · exact absurd ((String.isEmpty_iff keyId).mp hk) hne1
    have hk2 : keySecret.isEmpty = false := by
      cases hk : keySecret.isEmpty
      · rfl
      · exact absurd ((String.isEmpty_iff keySecret).mp hk) hne2
    refine ⟨{ region := params.region.getD ("us-east-1"),
              client := { credentials := { accessKeyId := keyId,
                                           secretAccessKey := keySecret },
                          region := params.region.getD ("us-east-1") } },
            ?_, rfl, rfl, rfl, ?_⟩
    · simp [mkLobeBedrockAI, jsTruthy, h1, h2, hk1, hk2]
    · intro hr
      simp [hr]

/-- C2 witness: a missing key id fails with the credentials error; two
non-empty credentials succeed with the default region. -/
theorem mkLobeBedrockAI_spec_witness :
    mkLobeBedrockAI
        { accessKeyId := none, accessKeySecret := some ("sk"), region := none } =
      Except.error { errorType := AgentRuntimeErrorType.InvalidBedrockCredentials }
    ∧ ∃ ai, mkLobeBedrockAI
        { accessKeyId := some ("ak"), accessKeySecret := some ("sk"), region := none } =
          Except.ok ai
      ∧ ai.region = "us-east-1" := by
  constructor
  · exact (mkLobeBedrockAI_spec
      { accessKeyId := none, accessKeySecret := some ("sk"), region := none }).1
      (Or.inl rfl)
  · obtain ⟨ai, hok, _, _, _, hdef⟩ := (mkLobeBedrockAI_spec
      { accessKeyId := some ("ak"), accessKeySecret := some ("sk"),
        region := none }).2 ("ak") ("sk") rfl (by decide) rfl (by decide)
    exact ⟨ai, hok, hdef rfl⟩

/-- C3: when the vendor invocation throws (and the request body was built,
so the call was reached), `chat` rejects with the structured
BedrockBizError (the spec's ProviderInvocationFailure) carrying the
original error name as the type tag, the original message, the vendor
metadata, and the region configured at construction. -/
theorem chat_vendor_failure_wrapped (ai : LobeBedrockAI) (env : Option String)
    (p : ChatStreamPayload) (e : VendorError) (dbgFails : Bool) (b : ChatBody)
    (h : chatRequestBody p = Except.ok b) :
    ai.chat env p (VendorOutcome.err e) dbgFails =
      Except.error (ChatError.chatError
        { error := { body := e.metadata, message := e.message, type := e.name,
                     region := if strStartsWith p.model llamaFamilyTag then
                                 some ai.region
                               else none }
          errorType := AgentRuntimeErrorType.BedrockBizError
          provider := ModelProvider.Bedrock
          region := ai.region }) := by
  cases hpre : strStartsWith p.model llamaFamilyTag with
  | true =>
    simp [LobeBedrockAI.chat, hpre, LobeBedrockAI.invokeLlamaModel, invokeWithOutcome]
  | false =>
    simp only [chatRequestBody, hpre, Bool.false_eq_true, if_false] at h
    cases hm : claudeRequestBody p with
    | error e2 => rw [hm] at h; cases h
    | ok c =>
      simp [LobeBedrockAI.chat, hpre, LobeBedrockAI.invokeClaudeModel, hm,
        invokeWithOutcome]

/-- C3 witness: a simulated ThrottlingException on a concrete Llama-family
call is rewrapped with its name, message, metadata and the configured
region. -/
theorem chat_vendor_failure_wrapped_witness :
    chatRequestBody
        { model := "meta.llama2-13b", messages := [], max_tokens := none,
          temperature := none, top_p := none } =
      Except.ok (ChatBody.llama { max_gen_len := 400, prompt := "" })
    ∧ LobeBedrockAI.chat
        { client := { credentials := { accessKeyId := "ak", secretAccessKey := "sk" },
                      region := "eu-central-1" },
          region := "eu-central-1" }
        none
        { model := "meta.llama2-13b", messages := [], max_tokens := none,
          temperature := none, top_p := none }
        (VendorOutcome.err
          { name := "ThrottlingException", message := "throttled", metadata := "md" })
        false =
      Except.error (ChatError.chatError
        { error := { body := "md", message := "throttled", type := "ThrottlingException",
                     region := some ("eu-central-1") }
          errorType := AgentRuntimeErrorType.BedrockBizError
          provider := ModelProvider.Bedrock
          region := "eu-central-1" }) := by
  constructor
  · decide
  · have h := chat_vendor_failure_wrapped
      { client := { credentials := { accessKeyId := "ak", secretAccessKey := "sk" },
                    region := "eu-central-1" },
        region := "eu-central-1" }
      none
      { model := "meta.llama2-13b", messages := [], max_tokens := none,
        temperature := none, top_p := none }
      { name := "ThrottlingException", message := "throttled", metadata := "md" }
      false
      (ChatBody.llama { max_gen_len := 400, prompt := "" })
      (by decide)
    simpa using h

/-- C4: on the Claude path the body's system field is present iff the input
contains a message with role system; its value is the content of the first
such message (first wins, the rest silently dropped); and the list handed
to the message converter is the input with every system message removed. -/
theorem claudeRequestBody_system_extraction (p : ChatStreamPayload)
    (b : ClaudeRequestBody) (h : claudeRequestBody p = Except.ok b) :
    (b.system.isSome ↔ ∃ m ∈ p.messages, m.role = MessageRole.system)
    ∧ b.system =
        ((p.messages.filter (fun m => m.role == MessageRole.system)).head?).map
          (fun m => m.content)
    ∧ buildAnthropicMessages
        (p.messages.filter (fun m => !(m.role == MessageRole.system))) =
      Except.ok b.messages
    ∧ ∀ m ∈ p.messages.filter (fun m => !(m.role == MessageRole.system)),
        m.role ≠ MessageRole.system := by
  simp only [claudeRequestBody] at h
  cases hm : buildAnthropicMessages
      (p.messages.filter (fun m => !(m.role == MessageRole.system))) with
  | error e => rw [hm] at h; cases h
  | ok msgs =>
    rw [hm] at h
    cases h
    refine ⟨?_, ?_, rfl, ?_⟩
    · simp [List.find?_isSome]
    · rw [find?_eq_filter_head?]
    · intro m hmem
      have hrole := (List.mem_filter.mp hmem).2
      simpa using hrole

/-- C4 witness: with two system messages in the input, the first one's
content becomes the system field and both are removed from the converted
message list. -/
theorem claudeRequestBody_system_extraction_witness :
    claudeRequestBody
        { model := "anthropic.claude-3",
          messages :=
            [{ role := MessageRole.system, content := MessageContent.text ("s1") },
             { role := MessageRole.user, content := MessageContent.text ("hi") },
             { role := MessageRole.system, content := MessageContent.text ("s2") }],
          max_tokens := none, temperature := none, top_p := none } =
      Except.ok
        { anthropic_version := "bedrock-2023-05-31", max_tokens := 4096,
          messages := [{ content := AnthropicContent.text ("hi"),
                         role := AnthropicRole.user }],
          system := some (MessageContent.text ("s1")),
          temperature := none, top_p := none }
    ∧ ({ anthropic_version := "bedrock-2023-05-31", max_tokens := 4096,
         messages := [{ content := AnthropicContent.text ("hi"),
                        role := AnthropicRole.user }],
         system := some (MessageContent.text ("s1")),
         temperature := none, top_p := none } : ClaudeRequestBody).system =
      some (MessageContent.text ("s1")) := by
  constructor
  · decide
  · have h := (claudeRequestBody_system_extraction
      { model := "anthropic.claude-3",
        messages :=
          [{ role := MessageRole.system, content := MessageContent.text ("s1") },
           { role := MessageRole.user, content := MessageContent.text ("hi") },
           { role := MessageRole.system, content := MessageContent.text ("s2") }],
        max_tokens := none, temperature := none, top_p := none }
      { anthropic_version := "bedrock-2023-05-31", max_tokens := 4096,
        messages := [{ content := AnthropicContent.text ("hi"),
                       role := AnthropicRole.user }],
        system := some (MessageContent.text ("s1")),
        temperature := none, top_p := none }
      (by decide)).2.1
    exact h.trans (by decide)

theorem invokeWithOutcome_debug (region : String) (env : Option String)
    (outcome : VendorOutcome) (dbgFails : Bool) (ebr : Option String) :
    (∀ err, invokeWithOutcome region env outcome dbgFails ebr = Except.error err ↔
        invokeWithOutcome region env outcome false ebr = Except.error err)
    ∧ ∀ s, invokeWithOutcome region env outcome dbgFails ebr = Except.ok s →
        s.debugDrainAttempted = debugBedrockChatCompletion env
        ∧ s.loggedDebugError = (debugBedrockChatCompletion env && dbgFails)
        ∧ ∃ s2, invokeWithOutcome region env outcome false ebr = Except.ok s2
            ∧ s2.output = s.output := by
  cases outcome with
  | ok chunks =>
    constructor
    · intro err
      constructor <;> intro h <;> simp [invokeWithOutcome] at h
    · intro s hs
      simp only [invokeWithOutcome] at hs
      cases hs
      exact ⟨rfl, rfl, ⟨_, rfl, rfl⟩⟩
  | err e =>
    constructor
    · intro err
      simp [invokeWithOutcome]
    · intro s hs
      simp [invokeWithOutcome] at hs

/-- C8: a failure while draining the diagnostic branch to the debug sink is
caught and only logged: the errors `chat` rejects with are the same as with
a healthy debug sink, a successful call returns the same primary output,
and the drain is attempted exactly when the debug environment toggle is
enabled. -/
theorem chat_debug_drain_isolated (ai : LobeBedrockAI) (env : Option String)
    (p : ChatStreamPayload) (outcome : VendorOutcome) (dbgFails : Bool) :
    (∀ err, ai.chat env p outcome dbgFails = Except.error err ↔
        ai.chat env p outcome false = Except.error err)
    ∧ ∀ s, ai.chat env p outcome dbgFails = Except.ok s →
        s.debugDrainAttempted = debugBedrockChatCompletion env
        ∧ s.loggedDebugError = (debugBedrockChatCompletion env && dbgFails)
        ∧ ∃ s2, ai.chat env p outcome false = Except.ok s2
            ∧ s2.output = s.output := by
  cases hpre : strStartsWith p.model llamaFamilyTag with
  | true =>
    have h := invokeWithOutcome_debug ai.region env outcome dbgFails (some ai.region)
    simpa [LobeBedrockAI.chat, hpre, LobeBedrockAI.invokeLlamaModel] using h
  | false =>
    cases hm : claudeRequestBody p with
    | error e =>
      constructor
      · intro err
        simp [LobeBedrockAI.chat, hpre, LobeBedrockAI.invokeClaudeModel, hm]
      · intro s hs
        simp [LobeBedrockAI.chat, hpre, LobeBedrockAI.invokeClaudeModel, hm] at hs
    | ok c =>
      have h := invokeWithOutcome_debug ai.region env outcome dbgFails none
      simpa [LobeBedrockAI.chat, hpre, LobeBedrockAI.invokeClaudeModel, hm] using h

/-- C8 witness: with the toggle enabled and a failing debug sink, a concrete
call still succeeds, the drain failure is only logged, and the primary
output matches the run with a healthy sink. -/
theorem chat_debug_drain_isolated_witness :
    LobeBedrockAI.chat
        { client := { credentials := { accessKeyId := "ak", secretAccessKey := "sk" },
                      region := "us-east-1" },
          region := "us-east-1" }
        (some ("1"))
        { model := "meta.llama2-13b", messages := [], max_tokens := none,
          temperature := none, top_p := none }
        (VendorOutcome.ok [("tok")]) true =
      Except.ok { output := [("tok")], debugDrainAttempted := true,
                  loggedDebugError := true }
    ∧ ∃ s2, LobeBedrockAI.chat
        { client := { credentials := { accessKeyId := "ak", secretAccessKey := "sk" },
                      region := "us-east-1" },
          region := "us-east-1" }
        (some ("1"))
        { model := "meta.llama2-13b", messages := [], max_tokens := none,
          temperature := none, top_p := none }
        (VendorOutcome.ok [("tok")]) false = Except.ok s2
      ∧ s2.output = [("tok")] := by
  constructor
  · decide
  · exact ((chat_debug_drain_isolated
      { client := { credentials := { accessKeyId := "ak", secretAccessKey := "sk" },
                    region := "us-east-1" },
        region := "us-east-1" }
      (some ("1"))
      { model := "meta.llama2-13b", messages := [], max_tokens := none,
        temperature := none, top_p := none }
      (VendorOutcome.ok [("tok")]) true).2
      { output := [("tok")], debugDrainAttempted := true, loggedDebugError := true }
      (by decide)).2.2

/-- C10: an error raised during message conversion on the Claude path (for
example a malformed image data URI) propagates to the caller unwrapped —
as the raw conversion failure, not the structured BedrockBizError —
whatever the vendor outcome, because the request body is built before the
try block that rewraps only invocation failures. -/
theorem chat_conversion_error_unwrapped (ai : LobeBedrockAI) (env : Option String)
    (p : ChatStreamPayload) (outcome : VendorOutcome) (dbgFails : Bool) (e : String)
    (hpre : strStartsWith p.model llamaFamilyTag = false)
    (h : claudeRequestBody p = Except.error e) :
    ai.chat env p outcome dbgFails = Except.error (ChatError.conversionFailure e) := by
  simp [LobeBedrockAI.chat, hpre, LobeBedrockAI.invokeClaudeModel, h]

/-- C10 witness: a malformed image data URI in a Claude-path payload makes
`chat` reject with the raw conversion failure even though the vendor call
would have thrown a ThrottlingException. -/
theorem chat_conversion_error_unwrapped_witness :
    strStartsWith ("anthropic.claude-3") llamaFamilyTag = false
    ∧ claudeRequestBody
        { model := "anthropic.claude-3",
          messages :=
            [{ role := MessageRole.user,
               content := MessageContent.parts
                 [UserMessageContentPart.image_url ("bogus")] }],
          max_tokens := none, temperature := none, top_p := none } =
      Except.error ("malformed data URI")
    ∧ LobeBedrockAI.chat
        { client := { credentials := { accessKeyId := "ak", secretAccessKey := "sk" },
                      region := "us-east-1" },
          region := "us-east-1" }
        none
        { model := "anthropic.claude-3",
          messages :=
            [{ role := MessageRole.user,
               content := MessageContent.parts
                 [UserMessageContentPart.image_url ("bogus")] }],
          max_tokens := none, temperature := none, top_p := none }
        (VendorOutcome.err
          { name := "ThrottlingException", message := "throttled", metadata := "md" })
        true =
      Except.error (ChatError.conversionFailure ("malformed data URI")) := by
  refine ⟨by decide, by decide, ?_⟩
  exact chat_conversion_error_unwrapped
    { client := { credentials := { accessKeyId := "ak", secretAccessKey := "sk" },
                  region := "us-east-1" },
      region := "us-east-1" }
    none
    { model := "anthropic.claude-3",
      messages :=
        [{ role := MessageRole.user,
           content := MessageContent.parts
             [UserMessageContentPart.image_url ("bogus")] }],
      max_tokens := none, temperature := none, top_p := none }
    (VendorOutcome.err
      { name := "ThrottlingException", message := "throttled", metadata := "md" })
    true ("malformed data URI") (by decide) (by decide)
